import Mathlib

set_option autoImplicit false
set_option linter.unusedVariables false

/-
Shallow embedding of the three Sawtooth transaction-processor families of this
repository:

  src/Calculator/pyprocessor/calculator_tp.py
  src/sawtooth-privacy/pyprocessor/patient_tp.py
  src/smartMed/pyprocessor/smartmed_tp.py

Stored bytes are always produced by `.encode('utf-8')` of Python text and read
back with `.decode()`, so byte strings are modelled as Lean `String`s.  The
hashlib SHA-512 hex digest and the validator-supplied context are external
collaborators; they are modelled as explicit parameters: a `hash` function
(string hashed to its hex digest string), an `ack` function (the address list
returned by `context.set_state`), and an explicit `Store` threaded through.
Python runtime faults (IndexError, ValueError, ZeroDivisionError,
UnboundLocalError, TypeError) and the Sawtooth SDK exceptions raised by the
handlers are modelled with `Except` over an explicit `Fault` type.
-/

namespace CRN

namespace Py

/-- Cut a character list at every occurrence of the separator character.
Consecutive separators yield empty fields; the result is never empty,
matching Python `str.split(sep)` for a one-character separator. -/
def splitCharList (sep : Char) : List Char → List (List Char)
  | [] => [[]]
  | c :: cs =>
    match splitCharList sep cs with
    | [] => [[]]
    | f :: fs => if c == sep then [] :: f :: fs else (c :: f) :: fs

/-- Python `s.split(sep)` for a one-character separator `sep`. -/
def split (sep : Char) (s : String) : List String :=
  (splitCharList sep s.data).map String.mk

/-- Drop whitespace from both ends of a character list. -/
def stripList (cs : List Char) : List Char :=
  ((cs.dropWhile Char.isWhitespace).reverse.dropWhile Char.isWhitespace).reverse

/-- Python `s.strip()`: remove leading and trailing whitespace. -/
def strip (s : String) : String :=
  String.mk (stripList s.data)

/-- Python `s.casefold()` restricted to ASCII, where it agrees with
lowercasing; the repository only compares ASCII color words. -/
def casefold (s : String) : String :=
  String.mk (s.data.map Char.toLower)

/-- Python slicing `s[0:n]`: the first `n` characters (all of `s` when it is
shorter). -/
def sliceTo (s : String) (n : Nat) : String :=
  String.mk (s.data.take n)

/-- Accumulate decimal digits; `none` as soon as a non-digit appears. -/
def parseNatAux : List Char → Nat → Option Nat
  | [], acc => some acc
  | c :: cs, acc =>
    if c.isDigit then parseNatAux cs (10 * acc + (c.toNat - 48)) else none

/-- Python `int(s)` on an optionally signed decimal numeral, the only form
this repository feeds to `int` (payload amounts and its own stored decimal
counters); any other string is a ValueError, modelled as `none`. -/
def toInt (s : String) : Option Int :=
  match s.data with
  | [] => none
  | '-' :: cs =>
    match cs with
    | [] => none
    | _ => (parseNatAux cs 0).map (fun n => -(n : Int))
  | '+' :: cs =>
    match cs with
    | [] => none
    | _ => (parseNatAux cs 0).map (fun n => (n : Int))
  | cs => (parseNatAux cs 0).map (fun n => (n : Int))

/-- Python `str(i)` for an integer. -/
def strOfInt (i : Int) : String := toString i

/-- Python `repr` of a string value (single quotes), faithful for strings
without quote, backslash, or control characters — the only strings this
repository ever places inside a `str(list)` / `str(tuple)` call. -/
def reprStr (s : String) : String := "'" ++ s ++ "'"

/-- Join strings with a separator, as Python `", ".join(...)` would. -/
def joinSep (sep : String) : List String → String
  | [] => ""
  | [x] => x
  | x :: xs => x ++ sep ++ joinSep sep xs

/-- Python `str(xs)` for a list whose elements are all strings. -/
def strOfStrList (xs : List String) : String :=
  "[" ++ joinSep ", " (xs.map reprStr) ++ "]"

/-- Python `str(xs)` for a tuple whose elements are all strings. -/
def strOfStrTuple (xs : List String) : String :=
  "(" ++ joinSep ", " (xs.map reprStr) ++ ")"

/-- Python floor division `a // b` (rounds toward negative infinity). -/
def floorDiv (a b : Int) : Int := Int.fdiv a b

end Py

/-- Faults a handler run can surface: the two Sawtooth SDK exceptions the
processors raise (`InvalidTransaction`, `InternalError`) and the uncaught
Python runtime errors their code can hit. -/
inductive Fault where
  | invalidTransaction (msg : String)
  | internalError (msg : String)
  | indexError
  | valueError
  | zeroDivisionError
  | unboundLocalError
  | typeError
  deriving Repr, DecidableEq

/-- Ledger state visible to a handler: addresses mapped to the UTF-8 text of
the stored bytes.  `context.get_state([a])` returns `[]` exactly when the
address is absent, modelled by `storeGet` returning `none`. -/
abbrev Store := List (String × String)

/-- Lookup of one address in the store. -/
def storeGet (store : Store) (addr : String) : Option String :=
  match store with
  | [] => none
  | (a, d) :: rest => if a == addr then some d else storeGet rest addr

/-- The write performed by `context.set_state({addr: data})`: overwrite the
record if present, create it otherwise. -/
def storeSet (store : Store) (addr : String) (data : String) : Store :=
  match store with
  | [] => [(addr, data)]
  | (a, d) :: rest =>
    if a == addr then (a, data) :: rest else (a, d) :: storeSet rest addr data

/-- The removal performed by `context.delete_state([addr])`; removing an
absent address leaves the store unchanged. -/
def storeDel (store : Store) (addr : String) : Store :=
  match store with
  | [] => []
  | (a, d) :: rest =>
    if a == addr then storeDel rest addr else (a, d) :: storeDel rest addr

/-- Result of a successful `apply`: the resulting store and the events
emitted through `context.add_event`, each an event type with its attribute
list, in emission order. -/
structure Outcome where
  store : Store
  events : List (String × List (String × String))
  deriving Repr, DecidableEq

/-- Acknowledgement behaviour of `context.set_state`: the list of addresses
the context reports as written, as a function of the requested addresses.
The honest validator returns the requested list itself. -/
abbrev Ack := List String → List String

namespace Calculator

/-- calculator_tp.py line 36. -/
def FAMILY_NAME : String := "calculator"

/-- calculator_tp.py lines 43-51: namespace = first 6 hex chars of
SHA-512("calculator"), then first 64 hex chars of SHA-512(signer key).
`hash` stands for `_hash`, the hex digest of SHA-512 over UTF-8 bytes. -/
def _get_calculator_address (hash : String → String) (from_key : String) : String :=
  Py.sliceTo (hash FAMILY_NAME) 6 ++ Py.sliceTo (hash from_key) 64

/-- calculator_tp.py lines 117-141, `_make_add`: absent state stores
`int(amount)`; present state parses the stored counter (bare `except` turns a
parse failure into InternalError) and stores `int(amount) + count`; after
`set_state` an acknowledgement of fewer than 1 address is InternalError. -/
def _make_add (hash : String → String) (ack : Ack) (store : Store)
    (amount : String) (from_key : String) : Except Fault Outcome :=
  let calculator_address := _get_calculator_address hash from_key
  match storeGet store calculator_address with
  | none =>
    match Py.toInt amount with
    | none => .error .valueError
    | some a =>
      let new_count := a
      let state_data := Py.strOfInt new_count
      let addresses := ack [calculator_address]
      if addresses.length < 1 then .error (.internalError "State Error")
      else .ok ⟨storeSet store calculator_address state_data, []⟩
  | some data =>
    match Py.toInt data with
    | none => .error (.internalError "Failed to load state data")
    | some count =>
      match Py.toInt amount with
      | none => .error .valueError
      | some a =>
        let new_count := a + count
        let state_data := Py.strOfInt new_count
        let addresses := ack [calculator_address]
        if addresses.length < 1 then .error (.internalError "State Error")
        else .ok ⟨storeSet store calculator_address state_data, []⟩

/-- calculator_tp.py lines 143-167, `_make_mul`: identical to `_make_add`
except the present-state value is `int(amount) * count`; absent state again
stores `int(amount)` itself. -/
def _make_mul (hash : String → String) (ack : Ack) (store : Store)
    (amount : String) (from_key : String) : Except Fault Outcome :=
  let calculator_address := _get_calculator_address hash from_key
  match storeGet store calculator_address with
  | none =>
    match Py.toInt amount with
    | none => .error .valueError
    | some a =>
      let new_count := a
      let state_data := Py.strOfInt new_count
      let addresses := ack [calculator_address]
      if addresses.length < 1 then .error (.internalError "State Error")
      else .ok ⟨storeSet store calculator_address state_data, []⟩
  | some data =>
    match Py.toInt data with
    | none => .error (.internalError "Failed to load state data")
    | some count =>
      match Py.toInt amount with
      | none => .error .valueError
      | some a =>
        let new_count := a * count
        let state_data := Py.strOfInt new_count
        let addresses := ack [calculator_address]
        if addresses.length < 1 then .error (.internalError "State Error")
        else .ok ⟨storeSet store calculator_address state_data, []⟩

/-- calculator_tp.py lines 169-194, `_make_sub`: in the absent branch the
later `LOGGER.info('Subtracting %s out of %d.', amount, count)` call reads
the local `count` that was never assigned, an UnboundLocalError raised before
any write; present state stores `count - int(amount)`. -/
def _make_sub (hash : String → String) (ack : Ack) (store : Store)
    (amount : String) (from_key : String) : Except Fault Outcome :=
  let calculator_address := _get_calculator_address hash from_key
  match storeGet store calculator_address with
  | none => .error .unboundLocalError
  | some data =>
    match Py.toInt data with
    | none => .error (.internalError "Failed to load state data")
    | some count =>
      match Py.toInt amount with
      | none => .error .valueError
      | some a =>
        let new_count := count - a
        let state_data := Py.strOfInt new_count
        let addresses := ack [_get_calculator_address hash from_key]
        if addresses.length < 1 then .error (.internalError "State Error")
        else .ok ⟨storeSet store (_get_calculator_address hash from_key) state_data, []⟩

/-- calculator_tp.py lines 196-220, `_make_div`: absent state stores
`int(amount)` with no division performed; present state evaluates
`int(count) // int(amount)`, so `amount` failing to parse is a ValueError and
a zero amount is an uncaught ZeroDivisionError. -/
def _make_div (hash : String → String) (ack : Ack) (store : Store)
    (amount : String) (from_key : String) : Except Fault Outcome :=
  let calculator_address := _get_calculator_address hash from_key
  match storeGet store calculator_address with
  | none =>
    match Py.toInt amount with
    | none => .error .valueError
    | some a =>
      let new_count := a
      let state_data := Py.strOfInt new_count
      let addresses := ack [calculator_address]
      if addresses.length < 1 then .error (.internalError "State Error")
      else .ok ⟨storeSet store calculator_address state_data, []⟩
  | some data =>
    match Py.toInt data with
    | none => .error (.internalError "Failed to load state data")
    | some count =>
      match Py.toInt amount with
      | none => .error .valueError
      | some a =>
        if a == 0 then .error .zeroDivisionError
        else
          let new_count := Py.floorDiv count a
          let state_data := Py.strOfInt new_count
          let addresses := ack [calculator_address]
          if addresses.length < 1 then .error (.internalError "State Error")
          else .ok ⟨storeSet store calculator_address state_data, []⟩

/-- calculator_tp.py lines 223-238, `_empty_calculator` (the `clear`
action): absent state returns with no context write at all; present state
stores `str(0)` and checks the acknowledgement count.  The `amount` argument
is passed by `apply` but never used. -/
def _empty_calculator (hash : String → String) (ack : Ack) (store : Store)
    (amount : String) (from_key : String) : Except Fault Outcome :=
  let calc_address := _get_calculator_address hash from_key
  match storeGet store calc_address with
  | none => .ok ⟨store, []⟩
  | some _ =>
    let state_data := Py.strOfInt 0
    let addresses := ack [calc_address]
    if addresses.length < 1 then .error (.internalError "State update Error")
    else .ok ⟨storeSet store calc_address state_data, []⟩

/-- calculator_tp.py lines 83-115, `CalculatorTransactionHandler.apply`:
split the payload on commas, read `payload_list[0]` and `payload_list[1]`
(an IndexError when the payload has fewer than two fields, before any
dispatch), then dispatch on the action tag; an unknown tag is only logged
and the call returns with no state operation and no event. -/
def apply (hash : String → String) (ack : Ack) (payload : String)
    (signer_public_key : String) (store : Store) : Except Fault Outcome :=
  let payload_list := Py.split ',' payload
  let action := payload_list.headD ""
  match payload_list.get? 1 with
  | none => .error .indexError
  | some amount =>
    if action == "add" then _make_add hash ack store amount signer_public_key
    else if action == "mul" then _make_mul hash ack store amount signer_public_key
    else if action == "sub" then _make_sub hash ack store amount signer_public_key
    else if action == "div" then _make_div hash ack store amount signer_public_key
    else if action == "clear" then _empty_calculator hash ack store amount signer_public_key
    else .ok ⟨store, []⟩

end Calculator

namespace Patient

/-- patient_tp.py line 38. -/
def FAMILY_NAME : String := "patient"

/-- patient_tp.py lines 45-53: namespace = first 6 hex chars of
SHA-512("patient"), then 32 hex chars of SHA-512(uid) and 32 hex chars of
SHA-512(psid), each key field hashed independently. -/
def _get_patient_address (hash : String → String) (uid psid : String) : String :=
  Py.sliceTo (hash FAMILY_NAME) 6 ++ Py.sliceTo (hash uid) 32 ++ Py.sliceTo (hash psid) 32

/-- patient_tp.py lines 129-131: the record written by `register` is
`str([uid, psid, status, 0, 0, dt_string])`, the Python list literal with the
three strings quoted and the two integer zeros bare. -/
def registerRecord (uid psid status dt_string : String) : String :=
  "[" ++ Py.reprStr uid ++ ", " ++ Py.reprStr psid ++ ", " ++ Py.reprStr status ++
    ", 0, 0, " ++ Py.reprStr dt_string ++ "]"

/-- patient_tp.py lines 120-138, `_make_register`: never reads prior state
(the `get_state` call is commented out in the source); writes the record at
the (uid, psid) address, checks the acknowledgement count, then emits an
event of type "cookiejar/bake" with attribute ("cookies-baked", uid).
`dt_string` is `datetime.now().strftime("%d/%m/%Y %H:%M:%S")`, the ambient
wall-clock reading, made an explicit parameter `now` here. -/
def _make_register (hash : String → String) (ack : Ack) (now : String)
    (store : Store) (uid psid status : String) (from_key : String) :
    Except Fault Outcome :=
  let patient_address := _get_patient_address hash uid psid
  let dt_string := now
  let state_data := registerRecord uid psid status dt_string
  let addresses := ack [patient_address]
  if addresses.length < 1 then .error (.internalError "State Error")
  else .ok ⟨storeSet store patient_address state_data,
            [("cookiejar/bake", [("cookies-baked", uid)])]⟩

/-- patient_tp.py lines 86-118, `PatientTransactionHandler.apply`: split the
payload on commas and read fields 0..3 (an IndexError when fewer than four
fields are present, before any dispatch), then dispatch.

The `delete` branch calls `self._make_delete(context, uid, psid)`, but
`_make_delete` is declared `@classmethod def _make_delete(self, cls, context,
uid, psid)` (line 141), so Python binds the class to `self` and the three
explicit arguments to `cls`, `context`, `uid`, leaving `psid` missing: the
call itself raises TypeError before the method body (and its
`delete_state` / nonexistent `self._address_cache`) can run.

The `clear` branch calls `_empty_cookie_jar`, whose first statement is
`_get_patient_address(from_key)` (line 152) with one argument for a
two-parameter function: TypeError before any context operation.

An unknown action tag is only logged. -/
def apply (hash : String → String) (ack : Ack) (now : String) (payload : String)
    (signer_public_key : String) (store : Store) : Except Fault Outcome :=
  let payload_list := Py.split ',' payload
  let action := payload_list.headD ""
  match payload_list.get? 1, payload_list.get? 2, payload_list.get? 3 with
  | some uid, some psid, some status =>
    if action == "register" then
      _make_register hash ack now store uid psid status signer_public_key
    else if action == "delete" then .error .typeError
    else if action == "clear" then .error .typeError
    else .ok ⟨store, []⟩
  | _, _, _ => .error .indexError

end Patient

namespace Smartmed

/-- smartmed_tp.py line 39. -/
def FAMILY_NAME : String := "smartmed"

/-- smartmed_tp.py lines 46-54: the address is the first 6 hex chars of
SHA-512("smartmed") followed by the first 64 hex chars of SHA-512(query);
the `from_key` parameter is accepted but never used. -/
def _get_smartmed_address (hash : String → String) (from_key query : String) : String :=
  Py.sliceTo (hash FAMILY_NAME) 6 ++ Py.sliceTo (hash query) 64

/-- One iteration of the `for line in lines` loop of `_make_find`
(smartmed_tp.py lines 148-160): strip and split the line, read `data[2]`
(IndexError when the line has fewer than three fields), and when its casefold
equals `amount` mark the slot selected by `data[1]` as "waiting". -/
def findLine (amount : String) (query_result : List String) (line : String) :
    Except Fault (List String) :=
  match Py.split ',' (Py.strip line) with
  | d0 :: d1 :: d2 :: _ =>
    let _ := d0
    if Py.casefold d2 == amount then
      let qr := if d1 == "DS1Pubkey" then query_result.set 1 "waiting" else query_result
      let qr := if d1 == "DS2Pubkey" then qr.set 2 "waiting" else qr
      let qr := if d1 == "DS3Pubkey" then qr.set 3 "waiting" else qr
      let qr := if d1 == "DS4Pubkey" then qr.set 4 "waiting" else qr
      let qr := if d1 == "DS5Pubkey" then qr.set 5 "waiting" else qr
      .ok qr
    else .ok query_result
  | _ => .error .indexError

/-- The whole loop of `_make_find`, also tracking the last value bound to
`data`, which line 161 (`fw.write(data[1])`) reads after the loop: when
`lines` is empty that read raises UnboundLocalError. -/
def findLoop (amount : String) : List String → List String →
    Except Fault (List String × Option String)
  | query_result, [] => .ok (query_result, none)
  | query_result, line :: rest =>
    match findLine amount query_result line with
    | .error e => .error e
    | .ok qr =>
      match findLoop amount qr rest with
      | .error e => .error e
      | .ok (qr', last) =>
        match last with
        | none => .ok (qr', some line)
        | some l => .ok (qr', some l)

/-- smartmed_tp.py lines 138-166, `_make_find`: builds
`[qid, "n/a", "n/a", "n/a", "n/a", "n/a"]`, marks the slots of participants
whose color matches `amount` as "waiting" from the external `dslist.txt`
reference file (here the explicit `dslist` line-list parameter; the
`ds-color.txt` output file is outside ledger state and ignored beyond the
faults its `data[1]` read can raise), then writes `str(query_result)` at the
qid-derived address.  The `set_state` return value is assigned but never
checked, and no event is emitted. -/
def _make_find (hash : String → String) (ack : Ack) (dslist : List String)
    (store : Store) (amount qid : String) (from_key : String) :
    Except Fault Outcome :=
  let query_address := _get_smartmed_address hash from_key qid
  let query_result := [qid, "n/a", "n/a", "n/a", "n/a", "n/a"]
  match findLoop amount query_result dslist with
  | .error e => .error e
  | .ok (_, none) => .error .unboundLocalError
  | .ok (qr, some _) =>
    let state_data := Py.strOfStrList qr
    let _addresses := ack [query_address]
    .ok ⟨storeSet store query_address state_data, []⟩

/-- smartmed_tp.py lines 168-196, `_make_interested`: reads the stored
record (`state_entries[0]` raises IndexError when the address is absent),
unpacks its comma-split into exactly six names (ValueError otherwise; the
payload's qid and ds1..ds5 arguments are shadowed by the stored values),
maps a "yes" status to the literal "inetersted" (sic) and anything else to
"not interested", replaces the slot selected by `username` (a username
outside ds1..ds5 leaves `query_result` unbound: UnboundLocalError at the
`str(query_result)` read), writes the Python tuple literal back, checks the
acknowledgement count, and emits ("smartmed/bake", [("cookies-baked",
username)]). -/
def _make_interested (hash : String → String) (ack : Ack) (store : Store)
    (username qid status ds1 ds2 ds3 ds4 ds5 : String) (from_key : String) :
    Except Fault Outcome :=
  let query_address := _get_smartmed_address hash from_key qid
  match storeGet store query_address with
  | none => .error .indexError
  | some data =>
    match Py.split ',' data with
    | [qid', ds1', ds2', ds3', ds4', ds5'] =>
      let status' := if status == "yes" then "inetersted" else "not interested"
      let query_result? : Option (List String) :=
        if username == "ds1" then some [qid', status', ds2', ds3', ds4', ds5']
        else if username == "ds2" then some [qid', ds1', status', ds3', ds4', ds5']
        else if username == "ds3" then some [qid', ds1', ds2', status', ds4', ds5']
        else if username == "ds4" then some [qid', ds1', ds2', ds3', status', ds5']
        else if username == "ds5" then some [qid', ds1', ds2', ds3', ds4', status']
        else none
      match query_result? with
      | none => .error .unboundLocalError
      | some query_result =>
        let state_data := Py.strOfStrTuple query_result
        let addresses := ack [query_address]
        if addresses.length < 1 then .error (.internalError "State Error")
        else .ok ⟨storeSet store query_address state_data,
                  [("smartmed/bake", [("cookies-baked", username)])]⟩
    | _ => .error .valueError

/-- smartmed_tp.py lines 198-203, `_make_delete`: unconditionally deletes
the qid-derived address, ignoring the `delete_state` return value; no read,
no check, no event. -/
def _make_delete (hash : String → String) (store : Store) (qid : String)
    (from_key : String) : Except Fault Outcome :=
  let query_address := _get_smartmed_address hash from_key qid
  .ok ⟨storeDel store query_address, []⟩

/-- smartmed_tp.py lines 86-136, `smartmedTransactionHandler.apply`: split
the payload, read the fields each action needs (`find`: indices 1-2,
`interested`: 1-8, `delete`: 1; an IndexError when missing), dispatch, and
only log an unknown action (which extracts no further fields). -/
def apply (hash : String → String) (ack : Ack) (dslist : List String)
    (payload : String) (signer_public_key : String) (store : Store) :
    Except Fault Outcome :=
  let payload_list := Py.split ',' payload
  let action := payload_list.headD ""
  if action == "find" then
    match payload_list.get? 1, payload_list.get? 2 with
    | some amount, some qid =>
      _make_find hash ack dslist store amount qid signer_public_key
    | _, _ => .error .indexError
  else if action == "interested" then
    match payload_list.get? 1, payload_list.get? 2, payload_list.get? 3,
          payload_list.get? 4, payload_list.get? 5, payload_list.get? 6,
          payload_list.get? 7, payload_list.get? 8 with
    | some username, some qid, some status, some ds1, some ds2, some ds3,
      some ds4, some ds5 =>
      _make_interested hash ack store username qid status ds1 ds2 ds3 ds4 ds5
        signer_public_key
    | _, _, _, _, _, _, _, _ => .error .indexError
  else if action == "delete" then
    match payload_list.get? 1 with
    | some qid => _make_delete hash store qid signer_public_key
    | none => .error .indexError
  else .ok ⟨store, []⟩

end Smartmed

/-- A concrete hash instance for evaluating the embedding at specific
inputs: the claims under check depend only on the structure of the derived
addresses, never on SHA-512 digest values, so the constant-empty digest
serves as a transparent stand-in (every derived address becomes ""). -/
def hash0 : String → String := fun _ => ""

/-- The honest validator acknowledgement: `set_state` reports exactly the
addresses that were requested. -/
def honestAck : Ack := fun l => l

/-- A faulty acknowledgement: `set_state` reports no address written. -/
def emptyAck : Ack := fun _ => []

end CRN

deriving instance DecidableEq for Except

namespace CRN

/-- Reading back the address just written returns the new record. -/
theorem storeGet_storeSet_self (store : Store) (a d : String) :
    storeGet (storeSet store a d) a = some d := by
  induction store with
  | nil => simp [storeSet, storeGet]
  | cons hd tl ih =>
    obtain ⟨b, e⟩ := hd
    by_cases hba : b = a
    · subst hba
      simp [storeSet, storeGet]
    · have hbeq : (b == a) = false := by
        simpa using hba
      simp [storeSet, storeGet, hbeq, ih]

/-- C1 (counterexample): two runs of the patient register action with
identical payload, signer key, and prior state but different wall-clock
readings produce different outcomes — the written record embeds the
timestamp, so apply is not a function of transaction contents and stored
state alone. -/
theorem C1_counterexample :
    Patient.apply hash0 honestAck "01/01/2020 00:00:00" "register,u,p,s" "k" [] ≠
      Patient.apply hash0 honestAck "02/01/2020 00:00:00" "register,u,p,s" "k" [] := by
  decide

/-- C3: a calculator div transaction with amount 0 is not rejected as an
invalid transaction: with a stored value present it evaluates
`int(count) // int(amount)` and surfaces the uncaught ZeroDivisionError, and
with the record absent it does not divide at all but writes `int("0") = 0`
to the derived address, changing state. -/
theorem C3_div_zero_crash :
    Calculator.apply hash0 honestAck "div,0" "k" [("", "5")] =
        .error .zeroDivisionError ∧
      Calculator.apply hash0 honestAck "div,0" "k" [] = .ok ⟨[("", "0")], []⟩ :=
  ⟨rfl, rfl⟩

/-- C6: the smartmed interested action with status "yes" writes the
misspelled literal "inetersted" into the participant's slot, not
"interested"; the qid field and the other slots' values are threaded
through unchanged into the re-encoded tuple record. -/
theorem C6_interested_misspelled_status :
    Smartmed.apply hash0 honestAck [] "interested,ds2,q1,yes,x,x,x,x,x" "k"
        [("", "q1,a,b,c,d,e")] =
      .ok ⟨[("", "('q1', 'a', 'inetersted', 'c', 'd', 'e')")],
           [("smartmed/bake", [("cookies-baked", "ds2")])]⟩ ∧
    ("('q1', 'a', 'inetersted', 'c', 'd', 'e')" : String) ≠
      "('q1', 'a', 'interested', 'c', 'd', 'e')" := by
  exact ⟨rfl, by decide⟩

/-- C7: malformed payloads are not surfaced as invalid-transaction faults:
a calculator payload "clear" with no second field hits the unguarded
`payload_list[1]` read (IndexError), a non-numeric amount hits `int(amount)`
(ValueError), and a patient payload with fewer than four fields hits
`payload_list[2]` (IndexError) — all uncaught runtime errors, raised before
any state operation, never InvalidTransaction. -/
theorem C7_malformed_payload_uncaught :
    Calculator.apply hash0 honestAck "clear" "k" [] = .error .indexError ∧
      Calculator.apply hash0 honestAck "add,abc" "k" [] = .error .valueError ∧
      Patient.apply hash0 honestAck "t" "register,u1" "k" [] = .error .indexError := by
  exact ⟨by decide, by decide, by decide⟩

/-- C9: the patient delete action always raises TypeError — the
`@classmethod def _make_delete(self, cls, context, uid, psid)` declaration
misbinds the call `self._make_delete(context, uid, psid)`, leaving `psid`
without an argument — so it neither removes the record nor completes
without error; the smartmed delete action deletes unconditionally, and on
an absent record it succeeds with no error and no state change. -/
theorem C9_delete_behavior :
    Patient.apply hash0 honestAck "t" "delete,u1,p1,x" "k"
        [("", "['u1', 'p1', 's', 0, 0, 't']")] = .error .typeError ∧
      Smartmed.apply hash0 honestAck [] "delete,q9" "k" [] = .ok ⟨[], []⟩ ∧
      Smartmed.apply hash0 honestAck [] "delete,q1" "k" [("", "r")] = .ok ⟨[], []⟩ := by
  exact ⟨by decide, by decide, by decide⟩

/-- C4 (counterexample): the smartmed find action assigns the `set_state`
return value but never checks it — with a context acknowledging zero
addresses the transaction still completes successfully instead of raising
an internal fault. -/
theorem C4_counterexample :
    Smartmed.apply hash0 emptyAck ["P1,DS1Pubkey,green"] "find,green,q1" "k" [] =
      .ok ⟨[("", "['q1', 'waiting', 'n/a', 'n/a', 'n/a', 'n/a']")], []⟩ := by
  decide

/-- C8 (counterexample): a calculator transaction whose action tag is
unknown but whose payload has only one field raises IndexError at the
unconditional `payload_list[1]` read, so an unknown action is not always
error-free. -/
theorem C8_counterexample :
    Calculator.apply hash0 honestAck "foo" "k" [] = .error .indexError := by
  decide

/-- C5 (counterexample): the patient register action emits an event of type
"cookiejar/bake" with attribute ("cookies-baked", uid), not
"patient/registered" with attribute (uid, uid). -/
theorem C5_counterexample :
    Patient.apply hash0 honestAck "t" "register,u1,p1,s1" "k" [] =
      .ok ⟨[("", "['u1', 'p1', 's1', 0, 0, 't']")],
           [("cookiejar/bake", [("cookies-baked", "u1")])]⟩ ∧
    (("cookiejar/bake", [("cookies-baked", "u1")]) :
        String × List (String × String)) ≠
      ("patient/registered", [("u1", "u1")]) := by
  exact ⟨by decide, by decide⟩

/-- C2 (counterexample): a calculator mul transaction with the record
absent stores the amount itself — `mul(3)` from absent state stores "3",
not the "0" demanded by taking the prior value as 0. -/
theorem C2_counterexample :
    Calculator.apply hash0 honestAck "mul,3" "k" [] = .ok ⟨[("", "3")], []⟩ ∧
      ("3" : String) ≠ "0" := by
  exact ⟨by decide, by decide⟩

/-- C10: the smartmed address derivation never reads its signer-key
argument, so any two signer keys derive the same address for the same query
id, and the whole smartmed apply — its find, interested, and delete reads,
writes, and deletions included — is independent of the signer key. -/
theorem C10_address_ignores_signer :
    (∀ (hash : String → String) (k₁ k₂ q : String),
        Smartmed._get_smartmed_address hash k₁ q =
          Smartmed._get_smartmed_address hash k₂ q) ∧
    (∀ (hash : String → String) (ack : Ack) (dslist : List String)
        (payload k₁ k₂ : String) (store : Store),
        Smartmed.apply hash ack dslist payload k₁ store =
          Smartmed.apply hash ack dslist payload k₂ store) :=
  ⟨fun _ _ _ _ => rfl, fun _ _ _ _ _ _ _ => rfl⟩

/-- C1 (amended): with the wall-clock reading made an explicit input, apply
is a pure function, and the patient register write is a function of (uid,
psid, status, clock) only: under an honest context, two register runs with
the same payload fields and clock but arbitrary (possibly different) signer
keys and prior stores write the identical record bytes at the identical
derived address and emit the identical event. -/
theorem C1_register_write_determined
    (hash : String → String) (ack : Ack) (hack : ∀ l, ack l = l)
    (now payload uid psid status k₁ k₂ : String) (s₁ s₂ : Store)
    (hsplit : Py.split ',' payload = ["register", uid, psid, status]) :
    Patient.apply hash ack now payload k₁ s₁ =
      .ok ⟨storeSet s₁ (Patient._get_patient_address hash uid psid)
             (Patient.registerRecord uid psid status now),
           [("cookiejar/bake", [("cookies-baked", uid)])]⟩ ∧
    Patient.apply hash ack now payload k₂ s₂ =
      .ok ⟨storeSet s₂ (Patient._get_patient_address hash uid psid)
             (Patient.registerRecord uid psid status now),
           [("cookiejar/bake", [("cookies-baked", uid)])]⟩ := by
  constructor <;> simp [Patient.apply, hsplit, Patient._make_register, hack]

/-- C1 (witness): the amended determinism theorem applied at concrete
inputs, two different signer keys and prior stores. -/
theorem C1_witness :
    Patient.apply hash0 honestAck "t0" "register,u,p,s" "k1" [] =
      .ok ⟨storeSet [] (Patient._get_patient_address hash0 "u" "p")
             (Patient.registerRecord "u" "p" "s" "t0"),
           [("cookiejar/bake", [("cookies-baked", "u")])]⟩ ∧
    Patient.apply hash0 honestAck "t0" "register,u,p,s" "k2" [("x", "y")] =
      .ok ⟨storeSet [("x", "y")] (Patient._get_patient_address hash0 "u" "p")
             (Patient.registerRecord "u" "p" "s" "t0"),
           [("cookiejar/bake", [("cookies-baked", "u")])]⟩ :=
  C1_register_write_determined hash0 honestAck (fun _ => rfl) "t0"
    "register,u,p,s" "u" "p" "s" "k1" "k2" [] [("x", "y")] (by decide)

/-- C2 (amended): for a well-formed amount `a` under an honest context,
with the record present holding value `v` the calculator stores `v + a`,
`v * a`, `v - a`, and (for nonzero `a`) the floor division `v // a`, and
`clear` stores 0; with the record absent, add, mul, and div all store the
amount `a` itself, sub raises UnboundLocalError, and clear is a no-op. -/
theorem C2_calculator_semantics
    (hash : String → String) (ack : Ack) (hack : ∀ l, ack l = l)
    (amt : String) (a : Int) (ha : Py.toInt amt = some a)
    (k : String) (store : Store) :
    (storeGet store (Calculator._get_calculator_address hash k) = none →
      Calculator._make_add hash ack store amt k =
          .ok ⟨storeSet store (Calculator._get_calculator_address hash k)
                 (Py.strOfInt a), []⟩ ∧
        Calculator._make_mul hash ack store amt k =
          .ok ⟨storeSet store (Calculator._get_calculator_address hash k)
                 (Py.strOfInt a), []⟩ ∧
        Calculator._make_sub hash ack store amt k = .error .unboundLocalError ∧
        Calculator._make_div hash ack store amt k =
          .ok ⟨storeSet store (Calculator._get_calculator_address hash k)
                 (Py.strOfInt a), []⟩ ∧
        Calculator._empty_calculator hash ack store amt k = .ok ⟨store, []⟩) ∧
    (∀ d v, storeGet store (Calculator._get_calculator_address hash k) = some d →
      Py.toInt d = some v →
      Calculator._make_add hash ack store amt k =
          .ok ⟨storeSet store (Calculator._get_calculator_address hash k)
                 (Py.strOfInt (v + a)), []⟩ ∧
        Calculator._make_mul hash ack store amt k =
          .ok ⟨storeSet store (Calculator._get_calculator_address hash k)
                 (Py.strOfInt (v * a)), []⟩ ∧
        Calculator._make_sub hash ack store amt k =
          .ok ⟨storeSet store (Calculator._get_calculator_address hash k)
                 (Py.strOfInt (v - a)), []⟩ ∧
        (a ≠ 0 → Calculator._make_div hash ack store amt k =
          .ok ⟨storeSet store (Calculator._get_calculator_address hash k)
                 (Py.strOfInt (Py.floorDiv v a)), []⟩) ∧
        Calculator._empty_calculator hash ack store amt k =
          .ok ⟨storeSet store (Calculator._get_calculator_address hash k)
                 (Py.strOfInt 0), []⟩) := by
  constructor
  · intro habs
    refine ⟨?_, ?_, ?_, ?_, ?_⟩ <;>
      simp [Calculator._make_add, Calculator._make_mul, Calculator._make_sub,
        Calculator._make_div, Calculator._empty_calculator, habs, ha, hack]
  · intro d v hd hv
    have hcomm : a + v = v + a := by ring
    have hcomm2 : a * v = v * a := by ring
    refine ⟨?_, ?_, ?_, ?_, ?_⟩
    · simp [Calculator._make_add, hd, ha, hv, hack, hcomm]
    · simp [Calculator._make_mul, hd, ha, hv, hack, hcomm2]
    · simp [Calculator._make_sub, hd, ha, hv, hack]
    · intro hne
      have hne' : (a == 0) = false := by simpa using hne
      simp [Calculator._make_div, hd, ha, hv, hack, hne']
    · simp [Calculator._empty_calculator, hd, hack]

/-- C2 (witness): the amended calculator semantics applied at the concrete
present-record instance v = 5, a = 3 for the add action. -/
theorem C2_witness :
    Calculator._make_add hash0 honestAck [("", "5")] "3" "k" =
      .ok ⟨storeSet [("", "5")] (Calculator._get_calculator_address hash0 "k")
             (Py.strOfInt (5 + 3)), []⟩ :=
  ((C2_calculator_semantics hash0 honestAck (fun _ => rfl) "3" 3 rfl "k"
      [("", "5")]).2 "5" 5 rfl rfl).1

/-- C4 (amended): under a context acknowledging no addresses, every
reachable `set_state` call except the smartmed find action's is followed by
the shortfall check `if len(addresses) < 1: raise InternalError`: all five
calculator actions raise InternalError in every branch of theirs that
reaches a write (with the record absent, clear returns without writing at
all and sub faults with UnboundLocalError before its write), as do the
patient register and the smartmed interested action — while the smartmed
find action assigns the `set_state` return value without checking it, so
its write completes successfully under every acknowledgement behaviour. -/
theorem C4_set_state_shortfall
    (hash : String → String) (ack : Ack) (hail : ∀ l, ack l = [])
    (now uid psid status amt : String) (a : Int) (ha : Py.toInt amt = some a)
    (k q st : String) (store : Store) :
    (storeGet store (Calculator._get_calculator_address hash k) = none →
      Calculator._make_add hash ack store amt k =
          .error (.internalError "State Error") ∧
        Calculator._make_mul hash ack store amt k =
          .error (.internalError "State Error") ∧
        Calculator._make_div hash ack store amt k =
          .error (.internalError "State Error") ∧
        Calculator._make_sub hash ack store amt k = .error .unboundLocalError ∧
        Calculator._empty_calculator hash ack store amt k = .ok ⟨store, []⟩) ∧
    (∀ d v, storeGet store (Calculator._get_calculator_address hash k) = some d →
      Py.toInt d = some v →
      Calculator._make_add hash ack store amt k =
          .error (.internalError "State Error") ∧
        Calculator._make_mul hash ack store amt k =
          .error (.internalError "State Error") ∧
        Calculator._make_sub hash ack store amt k =
          .error (.internalError "State Error") ∧
        (a ≠ 0 → Calculator._make_div hash ack store amt k =
          .error (.internalError "State Error")) ∧
        Calculator._empty_calculator hash ack store amt k =
          .error (.internalError "State update Error")) ∧
    Patient._make_register hash ack now store uid psid status k =
      .error (.internalError "State Error") ∧
    (∀ d qid' d1 d2 d3 d4 d5,
      storeGet store (Smartmed._get_smartmed_address hash k q) = some d →
      Py.split ',' d = [qid', d1, d2, d3, d4, d5] →
      Smartmed._make_interested hash ack store "ds1" q st d1 d2 d3 d4 d5 k =
        .error (.internalError "State Error")) ∧
    (∀ ack' : Ack,
      Smartmed._make_find hash ack' ["P1,DS1Pubkey,green"] store "green" q k =
        .ok ⟨storeSet store (Smartmed._get_smartmed_address hash k q)
               (Py.strOfStrList [q, "waiting", "n/a", "n/a", "n/a", "n/a"]), []⟩) := by
  refine ⟨?_, ?_, ?_, ?_, ?_⟩
  · intro habs
    refine ⟨?_, ?_, ?_, ?_, ?_⟩ <;>
      simp [Calculator._make_add, Calculator._make_mul, Calculator._make_div,
        Calculator._make_sub, Calculator._empty_calculator, habs, ha, hail]
  · intro d v hd hv
    refine ⟨?_, ?_, ?_, ?_, ?_⟩
    · simp [Calculator._make_add, hd, ha, hv, hail]
    · simp [Calculator._make_mul, hd, ha, hv, hail]
    · simp [Calculator._make_sub, hd, ha, hv, hail]
    · intro hne
      have hne' : (a == 0) = false := by simpa using hne
      simp [Calculator._make_div, hd, ha, hv, hail, hne']
    · simp [Calculator._empty_calculator, hd, hail]
  · simp [Patient._make_register, hail]
  · intro d qid' d1 d2 d3 d4 d5 hd hds
    simp [Smartmed._make_interested, hd, hds, hail]
  · intro ack'
    rfl

/-- C4 (witness): the shortfall theorem applied at concrete inputs — under
the zero-acknowledgement context, add on an absent record and mul, sub,
div, and clear on a present record all raise InternalError, while the same
context's find write completes successfully. -/
theorem C4_witness :
    Calculator._make_add hash0 emptyAck [] "3" "k" =
      .error (.internalError "State Error") ∧
    Calculator._make_mul hash0 emptyAck [("", "5")] "3" "k" =
      .error (.internalError "State Error") ∧
    Calculator._make_sub hash0 emptyAck [("", "5")] "3" "k" =
      .error (.internalError "State Error") ∧
    Calculator._make_div hash0 emptyAck [("", "5")] "3" "k" =
      .error (.internalError "State Error") ∧
    Calculator._empty_calculator hash0 emptyAck [("", "5")] "3" "k" =
      .error (.internalError "State update Error") ∧
    Patient._make_register hash0 emptyAck "t" [("", "5")] "u" "p" "s" "k" =
      .error (.internalError "State Error") ∧
    Smartmed._make_find hash0 emptyAck ["P1,DS1Pubkey,green"] [("", "5")] "green" "q" "k" =
      .ok ⟨storeSet [("", "5")] (Smartmed._get_smartmed_address hash0 "k" "q")
             (Py.strOfStrList ["q", "waiting", "n/a", "n/a", "n/a", "n/a"]), []⟩ := by
  have habsent := C4_set_state_shortfall hash0 emptyAck (fun _ => rfl) "t" "u" "p"
    "s" "3" 3 rfl "k" "q" "st" []
  have hpresent := C4_set_state_shortfall hash0 emptyAck (fun _ => rfl) "t" "u" "p"
    "s" "3" 3 rfl "k" "q" "st" [("", "5")]
  have hp := hpresent.2.1 "5" 5 rfl rfl
  exact ⟨(habsent.1 rfl).1, hp.1, hp.2.2.1, hp.2.2.2.1 (by decide), hp.2.2.2.2,
    hpresent.2.2.1, hpresent.2.2.2.2 emptyAck⟩

/-- C5 (amended): under an honest context the patient register action
always writes the record `[uid, psid, status, 0, 0, timestamp]` at the
(uid, psid)-derived address, overwriting whatever is there with no merge —
after two consecutive registers for the same (uid, psid) only the second
status and timestamp persist — and emits an event of type "cookiejar/bake"
with attribute ("cookies-baked", uid) (not "patient/registered"). -/
theorem C5_register_overwrite_and_event
    (hash : String → String) (ack : Ack) (hack : ∀ l, ack l = l)
    (now payload uid psid status k : String) (store : Store)
    (hsplit : Py.split ',' payload = ["register", uid, psid, status]) :
    Patient.apply hash ack now payload k store =
      .ok ⟨storeSet store (Patient._get_patient_address hash uid psid)
             (Patient.registerRecord uid psid status now),
           [("cookiejar/bake", [("cookies-baked", uid)])]⟩ ∧
    (∀ now₂ payload₂ status₂,
      Py.split ',' payload₂ = ["register", uid, psid, status₂] →
      ∀ o₁, Patient.apply hash ack now payload k store = .ok o₁ →
      ∀ o₂, Patient.apply hash ack now₂ payload₂ k o₁.store = .ok o₂ →
      storeGet o₂.store (Patient._get_patient_address hash uid psid) =
        some (Patient.registerRecord uid psid status₂ now₂)) := by
  have happly : ∀ (now' payload' status' : String) (store' : Store),
      Py.split ',' payload' = ["register", uid, psid, status'] →
      Patient.apply hash ack now' payload' k store' =
        .ok ⟨storeSet store' (Patient._get_patient_address hash uid psid)
               (Patient.registerRecord uid psid status' now'),
             [("cookiejar/bake", [("cookies-baked", uid)])]⟩ := by
    intro now' payload' status' store' hs
    simp [Patient.apply, hs, Patient._make_register, hack]
  refine ⟨happly now payload status store hsplit, ?_⟩
  intro now₂ payload₂ status₂ hsplit₂ o₁ h₁ o₂ h₂
  rw [happly now payload status store hsplit] at h₁
  cases h₁
  rw [happly now₂ payload₂ status₂ _ hsplit₂] at h₂
  cases h₂
  exact storeGet_storeSet_self _ _ _

/-- C5 (witness): the overwrite conjunct applied at concrete inputs — after
registering with status "s1" and then "s2", the record holds only the
second status and timestamp. -/
theorem C5_witness :
    storeGet [("", Patient.registerRecord "u" "p" "s2" "t2")]
        (Patient._get_patient_address hash0 "u" "p") =
      some (Patient.registerRecord "u" "p" "s2" "t2") := by
  have h := C5_register_overwrite_and_event hash0 honestAck (fun _ => rfl) "t1"
    "register,u,p,s1" "u" "p" "s1" "k" [] (by decide)
  exact h.2 "t2" "register,u,p,s2" "s2" (by decide)
    ⟨[("", Patient.registerRecord "u" "p" "s1" "t1")],
     [("cookiejar/bake", [("cookies-baked", "u")])]⟩ (by decide)
    ⟨[("", Patient.registerRecord "u" "p" "s2" "t2")],
     [("cookiejar/bake", [("cookies-baked", "u")])]⟩ (by decide)

/-- C8 (amended): a transaction whose action tag is outside the family's
action set completes with no error, no state change, and no event, provided
the payload supplies the fields each apply extracts before dispatching (at
least two for the calculator, at least four for the patient family, none
beyond the tag for smartmed); with fewer fields the unconditional index
reads raise IndexError even for unknown tags. -/
theorem C8_unknown_action_noop
    (hash : String → String) (ack : Ack) (now : String) (dslist : List String)
    (k : String) (store : Store)
    (p₁ a₁ f₁ : String) (r₁ : List String)
    (h₁ : Py.split ',' p₁ = a₁ :: f₁ :: r₁)
    (ha₁ : a₁ ∉ (["add", "mul", "sub", "div", "clear"] : List String))
    (p₂ a₂ g₁ g₂ g₃ : String) (r₂ : List String)
    (h₂ : Py.split ',' p₂ = a₂ :: g₁ :: g₂ :: g₃ :: r₂)
    (ha₂ : a₂ ∉ (["register", "delete", "clear"] : List String))
    (p₃ : String)
    (ha₃ : (Py.split ',' p₃).headD "" ∉ (["find", "interested", "delete"] : List String)) :
    Calculator.apply hash ack p₁ k store = .ok ⟨store, []⟩ ∧
    Patient.apply hash ack now p₂ k store = .ok ⟨store, []⟩ ∧
    Smartmed.apply hash ack dslist p₃ k store = .ok ⟨store, []⟩ := by
  simp only [List.mem_cons, List.mem_singleton, not_or] at ha₁ ha₂ ha₃
  obtain ⟨n1, n2, n3, n4, n5, -⟩ := ha₁
  obtain ⟨m1, m2, m3, -⟩ := ha₂
  obtain ⟨q1, q2, q3, -⟩ := ha₃
  refine ⟨?_, ?_, ?_⟩
  · simp [Calculator.apply, h₁, n1, n2, n3, n4, n5]
  · simp [Patient.apply, h₂, m1, m2, m3]
  · simp only [List.headD_eq_head?_getD] at q1 q2 q3
    simp [Smartmed.apply, q1, q2, q3]

/-- C8 (witness): the unknown-action theorem applied at the concrete tag
"foo" with well-formed payloads over a nonempty store. -/
theorem C8_witness :
    Calculator.apply hash0 honestAck "foo,1" "k" [("x", "y")] = .ok ⟨[("x", "y")], []⟩ ∧
    Patient.apply hash0 honestAck "t" "foo,a,b,c" "k" [("x", "y")] = .ok ⟨[("x", "y")], []⟩ ∧
    Smartmed.apply hash0 honestAck [] "foo" "k" [("x", "y")] = .ok ⟨[("x", "y")], []⟩ :=
  C8_unknown_action_noop hash0 honestAck "t" [] "k" [("x", "y")]
    "foo,1" "foo" "1" [] (by decide) (by decide)
    "foo,a,b,c" "foo" "a" "b" "c" [] (by decide) (by decide)
    "foo" (by decide)

end CRN
